import Mathlib

/-!
# Verification of the single-file three-way merge core (src/merge_file.c)

A shallow embedding of the merge-file policy layer: the conflict resolver
(`merge_file_best_path`, `merge_file_best_mode`), the input normalizers
(`git_merge_file__input_from_file`, `git_merge_file__input_from_index_entry`,
`git_merge_file__input_from_diff_file`), the orchestrator
(`git_merge_file__from_inputs`), the public entry points (`git_merge_file`,
`git_merge_file_from_index`) and the result release function
(`git_merge_file_result_free`).

External collaborators (the file system, the object database, the allocator
and the xdiff text-merge engine) are passed in as explicit function
parameters.  C out-parameters become explicit returned values; nullable C
strings become `Option String`; byte buffers become `List Nat`.  Error codes
are `Int`, negative on failure, exactly as the C caller convention tests them
(`< 0`).  The orchestrator additionally reports the `xmparam` it handed to
the engine (`none` when the engine was never invoked), which makes the
"engine is not invoked" / "favor forwarded to the engine" observations
stateable.
-/

/-- GIT_FILEMODE_BLOB (octal 0100644). -/
def GIT_FILEMODE_BLOB : Nat := 33188

/-- GIT_FILEMODE_BLOB_EXECUTABLE (octal 0100755). -/
def GIT_FILEMODE_BLOB_EXECUTABLE : Nat := 33261

/-- An mmfile_t: a borrowed view over bytes (nullable pointer plus size). -/
structure MmFile where
  ptr : Option (List Nat)
  size : Nat
deriving DecidableEq

/-- A loaded object-database object (`git_odb_object`): its data and size. -/
structure OdbObject where
  data : List Nat
  size : Nat
deriving DecidableEq

/-- git_merge_file_input: one side of the three-way merge. -/
structure MergeInput where
  path : Option String
  mode : Nat
  mmfile : MmFile
  label : Option String
  odb_object : Option OdbObject
deriving DecidableEq

/-- A zero-initialized `git_merge_file_input` (`= {0}` in the C sources). -/
def mergeInputZero : MergeInput :=
  { path := none, mode := 0, mmfile := { ptr := none, size := 0 },
    label := none, odb_object := none }

/-- `GIT_MERGE_FILE_SIDE_EXISTS(X)` is `X->mode != 0`; the predicate the code
branches on is its negation, `mode = 0` (the absent-sentinel). -/
def mergeFileSideExists (input : MergeInput) : Prop := input.mode ≠ 0

instance (input : MergeInput) : Decidable (mergeFileSideExists input) := by
  unfold mergeFileSideExists; infer_instance

/-- `merge_file_best_path` (src/merge_file.c lines 23-41): picks the winning
path from the three sides, `none` standing for the C `NULL` return. -/
def merge_file_best_path (ancestor ours theirs : MergeInput) : Option String :=
  if ancestor.mode = 0 then
    if ours.path = theirs.path then ours.path
    else none
  else if ancestor.path = ours.path then theirs.path
  else if ancestor.path = theirs.path then ours.path
  else none

/-- `merge_file_best_mode` (src/merge_file.c lines 43-67): picks the winning
mode, `0` standing for "no coherent mode". -/
def merge_file_best_mode (ancestor ours theirs : MergeInput) : Nat :=
  if ancestor.mode = 0 then
    if ours.mode = GIT_FILEMODE_BLOB_EXECUTABLE ∨
       theirs.mode = GIT_FILEMODE_BLOB_EXECUTABLE then
      GIT_FILEMODE_BLOB_EXECUTABLE
    else GIT_FILEMODE_BLOB
  else if ancestor.mode = ours.mode then theirs.mode
  else if ancestor.mode = theirs.mode then ours.mode
  else 0

/-- C1: when the ancestor side is absent (mode is the absent-sentinel) and
both the ours and theirs sides are present, `merge_file_best_path` returns
`ours.path` iff `ours.path` equals `theirs.path` as strings, and `none`
otherwise. -/
theorem best_path_ancestor_absent
    (ancestor ours theirs : MergeInput) (po pt : String)
    (ha : ancestor.mode = 0)
    (ho : ours.mode ≠ 0) (ht : theirs.mode ≠ 0)
    (hpo : ours.path = some po) (hpt : theirs.path = some pt) :
    (merge_file_best_path ancestor ours theirs = ours.path ↔ po = pt) ∧
    (po ≠ pt → merge_file_best_path ancestor ours theirs = none) := by
  unfold merge_file_best_path
  rw [ha, hpo, hpt]
  simp only [if_pos rfl]
  by_cases h : po = pt
  · subst h
    simp
  · constructor
    · simp [h]
    · intro _
      simp [h]

/-- Witness for C1 at a concrete triple of inputs. -/
theorem best_path_ancestor_absent_witness :
    (merge_file_best_path mergeInputZero
        { path := some "a", mode := GIT_FILEMODE_BLOB,
          mmfile := { ptr := none, size := 0 }, label := none, odb_object := none }
        { path := some "a", mode := GIT_FILEMODE_BLOB,
          mmfile := { ptr := none, size := 0 }, label := none, odb_object := none } =
      some "a" ↔ "a" = "a") ∧
    ("a" ≠ "a" → merge_file_best_path mergeInputZero
        { path := some "a", mode := GIT_FILEMODE_BLOB,
          mmfile := { ptr := none, size := 0 }, label := none, odb_object := none }
        { path := some "a", mode := GIT_FILEMODE_BLOB,
          mmfile := { ptr := none, size := 0 }, label := none, odb_object := none } =
      none) :=
  best_path_ancestor_absent mergeInputZero
    { path := some "a", mode := GIT_FILEMODE_BLOB,
      mmfile := { ptr := none, size := 0 }, label := none, odb_object := none }
    { path := some "a", mode := GIT_FILEMODE_BLOB,
      mmfile := { ptr := none, size := 0 }, label := none, odb_object := none }
    "a" "a" rfl (by decide) (by decide) rfl rfl

/-- C2: when the ancestor side is present, `merge_file_best_path` returns
`theirs.path` when `ancestor.path = ours.path`; returns `ours.path` when
`ancestor.path = theirs.path` and `ancestor.path ≠ ours.path`; and returns
`none` when the ancestor path differs from both sides. -/
theorem best_path_ancestor_present
    (ancestor ours theirs : MergeInput) (pa po pt : String)
    (ha : ancestor.mode ≠ 0)
    (hpa : ancestor.path = some pa) (hpo : ours.path = some po)
    (hpt : theirs.path = some pt) :
    (pa = po → merge_file_best_path ancestor ours theirs = theirs.path) ∧
    (pa ≠ po → pa = pt → merge_file_best_path ancestor ours theirs = ours.path) ∧
    (pa ≠ po → pa ≠ pt → merge_file_best_path ancestor ours theirs = none) := by
  unfold merge_file_best_path
  rw [hpa, hpo, hpt]
  refine ⟨fun h => ?_, fun h h2 => ?_, fun h h2 => ?_⟩
  · simp [ha, h]
  · simp [ha, h, h2]
  · simp [ha, h, h2]

/-- Witness for C2 at a concrete triple of inputs. -/
theorem best_path_ancestor_present_witness :
    ("a" = "a" → merge_file_best_path
        { path := some "a", mode := GIT_FILEMODE_BLOB,
          mmfile := { ptr := none, size := 0 }, label := none, odb_object := none }
        { path := some "a", mode := GIT_FILEMODE_BLOB,
          mmfile := { ptr := none, size := 0 }, label := none, odb_object := none }
        { path := some "b", mode := GIT_FILEMODE_BLOB,
          mmfile := { ptr := none, size := 0 }, label := none, odb_object := none } =
      some "b") ∧
    ("a" ≠ "a" → "a" = "b" → merge_file_best_path
        { path := some "a", mode := GIT_FILEMODE_BLOB,
          mmfile := { ptr := none, size := 0 }, label := none, odb_object := none }
        { path := some "a", mode := GIT_FILEMODE_BLOB,
          mmfile := { ptr := none, size := 0 }, label := none, odb_object := none }
        { path := some "b", mode := GIT_FILEMODE_BLOB,
          mmfile := { ptr := none, size := 0 }, label := none, odb_object := none } =
      some "a") ∧
    ("a" ≠ "a" → "a" ≠ "b" → merge_file_best_path
        { path := some "a", mode := GIT_FILEMODE_BLOB,
          mmfile := { ptr := none, size := 0 }, label := none, odb_object := none }
        { path := some "a", mode := GIT_FILEMODE_BLOB,
          mmfile := { ptr := none, size := 0 }, label := none, odb_object := none }
        { path := some "b", mode := GIT_FILEMODE_BLOB,
          mmfile := { ptr := none, size := 0 }, label := none, odb_object := none } =
      none) :=
  best_path_ancestor_present
    { path := some "a", mode := GIT_FILEMODE_BLOB,
      mmfile := { ptr := none, size := 0 }, label := none, odb_object := none }
    { path := some "a", mode := GIT_FILEMODE_BLOB,
      mmfile := { ptr := none, size := 0 }, label := none, odb_object := none }
    { path := some "b", mode := GIT_FILEMODE_BLOB,
      mmfile := { ptr := none, size := 0 }, label := none, odb_object := none }
    "a" "a" "b" (by decide) rfl rfl rfl

/-- C3: `merge_file_best_mode` with an absent ancestor returns the executable
blob mode when either side is executable and the plain blob mode otherwise;
with a present ancestor it returns `theirs.mode` when `ancestor.mode =
ours.mode`, `ours.mode` when `ancestor.mode = theirs.mode` (and differs from
`ours.mode`), and `0` when both sides differ from the ancestor. -/
theorem best_mode_cases (ancestor ours theirs : MergeInput) :
    (ancestor.mode = 0 →
      merge_file_best_mode ancestor ours theirs =
        (if ours.mode = GIT_FILEMODE_BLOB_EXECUTABLE ∨
            theirs.mode = GIT_FILEMODE_BLOB_EXECUTABLE
         then GIT_FILEMODE_BLOB_EXECUTABLE else GIT_FILEMODE_BLOB)) ∧
    (ancestor.mode ≠ 0 →
      (ancestor.mode = ours.mode →
        merge_file_best_mode ancestor ours theirs = theirs.mode) ∧
      (ancestor.mode ≠ ours.mode → ancestor.mode = theirs.mode →
        merge_file_best_mode ancestor ours theirs = ours.mode) ∧
      (ancestor.mode ≠ ours.mode → ancestor.mode ≠ theirs.mode →
        merge_file_best_mode ancestor ours theirs = 0)) := by
  unfold merge_file_best_mode
  constructor
  · intro ha
    simp [ha]
  · intro ha
    refine ⟨fun h => ?_, fun h h2 => ?_, fun h h2 => ?_⟩
    · rw [if_neg ha, if_pos h]
    · rw [if_neg ha, if_neg h, if_pos h2]
    · rw [if_neg ha, if_neg h, if_neg h2]

/-- Witness for C3 at a concrete triple of inputs. -/
theorem best_mode_cases_witness :
    (mergeInputZero.mode = 0 →
      merge_file_best_mode mergeInputZero
        { path := some "a", mode := GIT_FILEMODE_BLOB,
          mmfile := { ptr := none, size := 0 }, label := none, odb_object := none }
        { path := some "a", mode := GIT_FILEMODE_BLOB_EXECUTABLE,
          mmfile := { ptr := none, size := 0 }, label := none, odb_object := none } =
        (if GIT_FILEMODE_BLOB = GIT_FILEMODE_BLOB_EXECUTABLE ∨
            GIT_FILEMODE_BLOB_EXECUTABLE = GIT_FILEMODE_BLOB_EXECUTABLE
         then GIT_FILEMODE_BLOB_EXECUTABLE else GIT_FILEMODE_BLOB)) ∧
    (mergeInputZero.mode ≠ 0 →
      (mergeInputZero.mode = GIT_FILEMODE_BLOB →
        merge_file_best_mode mergeInputZero
          { path := some "a", mode := GIT_FILEMODE_BLOB,
            mmfile := { ptr := none, size := 0 }, label := none, odb_object := none }
          { path := some "a", mode := GIT_FILEMODE_BLOB_EXECUTABLE,
            mmfile := { ptr := none, size := 0 }, label := none, odb_object := none } =
        GIT_FILEMODE_BLOB_EXECUTABLE) ∧
      (mergeInputZero.mode ≠ GIT_FILEMODE_BLOB →
        mergeInputZero.mode = GIT_FILEMODE_BLOB_EXECUTABLE →
        merge_file_best_mode mergeInputZero
          { path := some "a", mode := GIT_FILEMODE_BLOB,
            mmfile := { ptr := none, size := 0 }, label := none, odb_object := none }
          { path := some "a", mode := GIT_FILEMODE_BLOB_EXECUTABLE,
            mmfile := { ptr := none, size := 0 }, label := none, odb_object := none } =
        GIT_FILEMODE_BLOB) ∧
      (mergeInputZero.mode ≠ GIT_FILEMODE_BLOB →
        mergeInputZero.mode ≠ GIT_FILEMODE_BLOB_EXECUTABLE →
        merge_file_best_mode mergeInputZero
          { path := some "a", mode := GIT_FILEMODE_BLOB,
            mmfile := { ptr := none, size := 0 }, label := none, odb_object := none }
          { path := some "a", mode := GIT_FILEMODE_BLOB_EXECUTABLE,
            mmfile := { ptr := none, size := 0 }, label := none, odb_object := none } =
        0)) :=
  best_mode_cases mergeInputZero
    { path := some "a", mode := GIT_FILEMODE_BLOB,
      mmfile := { ptr := none, size := 0 }, label := none, odb_object := none }
    { path := some "a", mode := GIT_FILEMODE_BLOB_EXECUTABLE,
      mmfile := { ptr := none, size := 0 }, label := none, odb_object := none }

/-- git_merge_file_favor_t. -/
inductive GitMergeFileFavor where
  | normal
  | ours
  | theirs
  | union
deriving DecidableEq

/-- XDL_MERGE_FAVOR_OURS. -/
def XDL_MERGE_FAVOR_OURS : Nat := 1

/-- XDL_MERGE_FAVOR_THEIRS. -/
def XDL_MERGE_FAVOR_THEIRS : Nat := 2

/-- XDL_MERGE_FAVOR_UNION. -/
def XDL_MERGE_FAVOR_UNION : Nat := 3

/-- GIT_MERGE_FILE_DEFAULT flag value. -/
def GIT_MERGE_FILE_DEFAULT : Nat := 0

/-- GIT_MERGE_FILE_STYLE_DIFF3 flag bit. -/
def GIT_MERGE_FILE_STYLE_DIFF3 : Nat := 2

/-- GIT_MERGE_FILE_SIMPLIFY_ALNUM flag bit. -/
def GIT_MERGE_FILE_SIMPLIFY_ALNUM : Nat := 4

/-- XDL_MERGE_ZEALOUS simplification level. -/
def XDL_MERGE_ZEALOUS : Nat := 2

/-- XDL_MERGE_ZEALOUS_ALNUM simplification level. -/
def XDL_MERGE_ZEALOUS_ALNUM : Nat := 3

/-- XDL_MERGE_DIFF3 style value. -/
def XDL_MERGE_DIFF3 : Nat := 1

/-- xmparam_t as filled by the orchestrator (zeroed, then labels, favor
mapping, level and style). -/
structure XmParam where
  ancestor : Option String
  file1 : Option String
  file2 : Option String
  favor : Nat
  level : Nat
  style : Nat
deriving DecidableEq

/-- The xmparam the orchestrator builds (src/merge_file.c lines 197-216):
memset to zero, then the three labels, the favor mapping, the simplification
level and the diff3 style bit. -/
def mkXmparam (ancestor ours theirs : MergeInput)
    (favor : GitMergeFileFavor) (flags : Nat) : XmParam :=
  { ancestor := ancestor.label
    file1 := ours.label
    file2 := theirs.label
    favor :=
      if favor = GitMergeFileFavor.ours then XDL_MERGE_FAVOR_OURS
      else if favor = GitMergeFileFavor.theirs then XDL_MERGE_FAVOR_THEIRS
      else if favor = GitMergeFileFavor.union then XDL_MERGE_FAVOR_UNION
      else 0
    level :=
      if flags &&& GIT_MERGE_FILE_SIMPLIFY_ALNUM ≠ 0 then XDL_MERGE_ZEALOUS_ALNUM
      else XDL_MERGE_ZEALOUS
    style :=
      if flags &&& GIT_MERGE_FILE_STYLE_DIFF3 ≠ 0 then XDL_MERGE_DIFF3
      else 0 }

/-- mmbuffer_t: the engine's output buffer. -/
structure MmBuffer where
  ptr : List Nat
  size : Nat
deriving DecidableEq

/-- git_merge_file_result. -/
structure MergeResult where
  automergeable : Bool
  path : Option String
  mode : Nat
  data : Option (List Nat)
  len : Nat
deriving DecidableEq

/-- The all-zero `git_merge_file_result` produced by `memset(out, 0x0, ...)`. -/
def mergeResultZero : MergeResult :=
  { automergeable := false, path := none, mode := 0, data := none, len := 0 }

/-- The external xdiff text-merge engine (`xdl_merge`), treated as a black
box: given the three content buffers and the parameters it returns a status
(negative on hard failure, otherwise the number of unresolved conflicts) and
an output buffer. -/
def MergeEngine : Type :=
  MmFile → MmFile → MmFile → XmParam → Int × MmBuffer

/-- `git_merge_file__from_inputs` (src/merge_file.c lines 177-231).  Returns
the C return code, the final state of the `out` result, and the xmparam that
was handed to the engine (`none` when the engine was never invoked). -/
def git_merge_file__from_inputs (engine : MergeEngine)
    (ancestor ours theirs : MergeInput)
    (favor : GitMergeFileFavor) (flags : Nat) :
    Int × MergeResult × Option XmParam :=
  if ours.mode = 0 ∨ theirs.mode = 0 then
    (0, mergeResultZero, none)
  else
    let xmparam := mkXmparam ancestor ours theirs favor flags
    let out := { mergeResultZero with
                 path := merge_file_best_path ancestor ours theirs,
                 mode := merge_file_best_mode ancestor ours theirs }
    let r := engine ancestor.mmfile ours.mmfile theirs.mmfile xmparam
    if r.1 < 0 then
      (-1, out, some xmparam)
    else
      (0, { out with automergeable := decide (r.1 = 0),
                     data := some r.2.ptr, len := r.2.size },
       some xmparam)

/-- A present-side fixture input: plain blob at path "a" with empty content. -/
def sampleInput : MergeInput :=
  { path := some "a", mode := GIT_FILEMODE_BLOB,
    mmfile := { ptr := some [], size := 0 }, label := none, odb_object := none }

/-- An engine that always reports a hard failure. -/
def failEngine : MergeEngine := fun _ _ _ _ => (-1, { ptr := [], size := 0 })

/-- An engine that always succeeds with one unresolved conflict. -/
def conflictEngine : MergeEngine := fun _ _ _ _ => (2, { ptr := [60, 61], size := 2 })

/-- C4: when ours or theirs has the absent-sentinel mode, the orchestrator
returns success (0) with an all-zero result (path, mode, automergeable, data,
len all zero/null) and the engine is never invoked (`none` third component). -/
theorem from_inputs_short_circuit (engine : MergeEngine)
    (ancestor ours theirs : MergeInput)
    (favor : GitMergeFileFavor) (flags : Nat)
    (h : ours.mode = 0 ∨ theirs.mode = 0) :
    git_merge_file__from_inputs engine ancestor ours theirs favor flags =
      (0, { automergeable := false, path := none, mode := 0,
            data := none, len := 0 }, none) := by
  unfold git_merge_file__from_inputs
  rw [if_pos h]
  rfl

/-- Witness for C4 at a concrete call. -/
theorem from_inputs_short_circuit_witness :
    git_merge_file__from_inputs failEngine sampleInput mergeInputZero sampleInput
        GitMergeFileFavor.normal 0 =
      (0, { automergeable := false, path := none, mode := 0,
            data := none, len := 0 }, none) :=
  from_inputs_short_circuit failEngine sampleInput mergeInputZero sampleInput
    GitMergeFileFavor.normal 0 (Or.inl rfl)

/-- C5 counterexample: with both sides present at path "a" and an engine
reporting a hard failure, the orchestrator returns the error (-1) but the
output result is NOT all-zero: its path is `some "a"` and its mode is the
plain blob mode, written by the resolver before the engine was invoked. -/
theorem from_inputs_engine_failure_not_all_zero :
    (git_merge_file__from_inputs failEngine sampleInput sampleInput sampleInput
        GitMergeFileFavor.normal 0).1 = -1 ∧
    (git_merge_file__from_inputs failEngine sampleInput sampleInput sampleInput
        GitMergeFileFavor.normal 0).2.1.path = some "a" ∧
    (git_merge_file__from_inputs failEngine sampleInput sampleInput sampleInput
        GitMergeFileFavor.normal 0).2.1.mode = GIT_FILEMODE_BLOB := by
  refine ⟨rfl, rfl, rfl⟩

/-- C5 (amended): when both sides are present and the engine reports a hard
failure, the orchestrator returns -1; the result's automergeable, data and
len are still zero/null, but its path and mode carry the resolver's
best-path and best-mode values, written before the engine ran. -/
theorem from_inputs_engine_failure (engine : MergeEngine)
    (ancestor ours theirs : MergeInput)
    (favor : GitMergeFileFavor) (flags : Nat)
    (ho : ours.mode ≠ 0) (ht : theirs.mode ≠ 0)
    (hf : (engine ancestor.mmfile ours.mmfile theirs.mmfile
            (mkXmparam ancestor ours theirs favor flags)).1 < 0) :
    git_merge_file__from_inputs engine ancestor ours theirs favor flags =
      (-1,
       { automergeable := false,
         path := merge_file_best_path ancestor ours theirs,
         mode := merge_file_best_mode ancestor ours theirs,
         data := none, len := 0 },
       some (mkXmparam ancestor ours theirs favor flags)) := by
  unfold git_merge_file__from_inputs
  rw [if_neg (by simp [ho, ht])]
  simp only []
  rw [if_pos hf]
  rfl

/-- Witness for the amended C5 at a concrete failing engine. -/
theorem from_inputs_engine_failure_witness :
    git_merge_file__from_inputs failEngine sampleInput sampleInput sampleInput
        GitMergeFileFavor.normal 0 =
      (-1,
       { automergeable := false,
         path := merge_file_best_path sampleInput sampleInput sampleInput,
         mode := merge_file_best_mode sampleInput sampleInput sampleInput,
         data := none, len := 0 },
       some (mkXmparam sampleInput sampleInput sampleInput
              GitMergeFileFavor.normal 0)) :=
  from_inputs_engine_failure failEngine sampleInput sampleInput sampleInput
    GitMergeFileFavor.normal 0 (by decide) (by decide) (by decide)

/-- C6: when both sides are present and the engine returns a non-negative
status, the orchestrator returns success; the result's automergeable flag is
true iff the engine reported zero unresolved conflicts, and its data and len
are taken verbatim from the engine's output buffer. -/
theorem from_inputs_engine_success (engine : MergeEngine)
    (ancestor ours theirs : MergeInput)
    (favor : GitMergeFileFavor) (flags : Nat)
    (ho : ours.mode ≠ 0) (ht : theirs.mode ≠ 0)
    (hs : 0 ≤ (engine ancestor.mmfile ours.mmfile theirs.mmfile
                (mkXmparam ancestor ours theirs favor flags)).1) :
    (git_merge_file__from_inputs engine ancestor ours theirs favor flags).1 = 0 ∧
    ((git_merge_file__from_inputs engine ancestor ours theirs favor
        flags).2.1.automergeable = true ↔
      (engine ancestor.mmfile ours.mmfile theirs.mmfile
        (mkXmparam ancestor ours theirs favor flags)).1 = 0) ∧
    (git_merge_file__from_inputs engine ancestor ours theirs favor
        flags).2.1.data =
      some (engine ancestor.mmfile ours.mmfile theirs.mmfile
        (mkXmparam ancestor ours theirs favor flags)).2.ptr ∧
    (git_merge_file__from_inputs engine ancestor ours theirs favor
        flags).2.1.len =
      (engine ancestor.mmfile ours.mmfile theirs.mmfile
        (mkXmparam ancestor ours theirs favor flags)).2.size := by
  unfold git_merge_file__from_inputs
  rw [if_neg (by simp [ho, ht])]
  simp only []
  rw [if_neg (not_lt.mpr hs)]
  refine ⟨rfl, ?_, rfl, rfl⟩
  simp

/-- Witness for C6 at a concrete succeeding engine. -/
theorem from_inputs_engine_success_witness :
    (git_merge_file__from_inputs conflictEngine sampleInput sampleInput sampleInput
        GitMergeFileFavor.normal 0).1 = 0 ∧
    ((git_merge_file__from_inputs conflictEngine sampleInput sampleInput sampleInput
        GitMergeFileFavor.normal 0).2.1.automergeable = true ↔
      (conflictEngine sampleInput.mmfile sampleInput.mmfile sampleInput.mmfile
        (mkXmparam sampleInput sampleInput sampleInput
          GitMergeFileFavor.normal 0)).1 = 0) ∧
    (git_merge_file__from_inputs conflictEngine sampleInput sampleInput sampleInput
        GitMergeFileFavor.normal 0).2.1.data =
      some (conflictEngine sampleInput.mmfile sampleInput.mmfile sampleInput.mmfile
        (mkXmparam sampleInput sampleInput sampleInput
          GitMergeFileFavor.normal 0)).2.ptr ∧
    (git_merge_file__from_inputs conflictEngine sampleInput sampleInput sampleInput
        GitMergeFileFavor.normal 0).2.1.len =
      (conflictEngine sampleInput.mmfile sampleInput.mmfile sampleInput.mmfile
        (mkXmparam sampleInput sampleInput sampleInput
          GitMergeFileFavor.normal 0)).2.size :=
  from_inputs_engine_success conflictEngine sampleInput sampleInput sampleInput
    GitMergeFileFavor.normal 0 (by decide) (by decide) (by decide)

/-- An object id (git_oid), abstracted to a tag. -/
structure Oid where
  id : Nat
deriving DecidableEq

/-- An open object database handle (git_odb), abstracted to a tag. -/
structure Odb where
  handle : Nat
deriving DecidableEq

/-- git_index_entry, restricted to the fields the normalizer reads. -/
structure IndexEntry where
  mode : Nat
  path : String
  id : Oid
deriving DecidableEq

/-- git_diff_file, restricted to the fields the normalizer reads. -/
structure DiffFile where
  id : Oid
  path : String
  mode : Nat
deriving DecidableEq

/-- The stat result, restricted to the st_mode bits the normalizer reads. -/
structure StatInfo where
  st_mode : Nat
deriving DecidableEq

/-- Modelled from the spec: `git_index__create_mode` is declared in index.h,
which is not under src/.  The spec says the mode is "derived from the file's
executable bit (two possible outcomes: regular or executable blob mode)", so
it is the executable blob mode when the owner-execute permission bit (octal
0100 = 64) is set and the plain blob mode otherwise. -/
def git_index__create_mode (st_mode : Nat) : Nat :=
  if st_mode / 64 % 2 = 1 then GIT_FILEMODE_BLOB_EXECUTABLE
  else GIT_FILEMODE_BLOB

/-- `git_merge_file__input_from_file` (src/merge_file.c lines 69-105).
`stat` models `p_stat` (status and stat buffer), `readbuffer` models
`git_futils_readbuffer` (status and bytes), `allocOk` models whether
`git__strdup` succeeds.  Returns the C return code and the final state of
the input. -/
def git_merge_file__input_from_file
    (stat : String → Int × StatInfo)
    (readbuffer : String → Int × List Nat)
    (allocOk : Bool)
    (input : MergeInput) (path : String) : Int × MergeInput :=
  let s := stat path
  if s.1 < 0 then (s.1, input)
  else
    let rb := readbuffer path
    if rb.1 < 0 then (rb.1, input)
    else if allocOk = false then (-1, input)
    else
      let input1 := { input with
                      path := some path,
                      mode := git_index__create_mode s.2.st_mode,
                      mmfile := { ptr := some rb.2, size := rb.2.length } }
      let input2 := if input1.label = none then { input1 with label := input1.path }
                    else input1
      (rb.1, input2)

/-- `git_merge_file__input_from_index_entry` (src/merge_file.c lines
107-140).  `repoOdb` models `git_repository_odb` (status and handle),
`odbRead` models `git_odb_read` (status and object), `allocOk` models
whether `git__strdup` succeeds. -/
def git_merge_file__input_from_index_entry
    (repoOdb : Int × Odb)
    (odbRead : Odb → Oid → Int × OdbObject)
    (allocOk : Bool)
    (input : MergeInput) (entry : IndexEntry) : Int × MergeInput :=
  if entry.mode = 0 then (0, input)
  else if repoOdb.1 < 0 then (repoOdb.1, input)
  else
    let rd := odbRead repoOdb.2 entry.id
    if rd.1 < 0 then (rd.1, input)
    else
      let input1 := { input with odb_object := some rd.2 }
      if allocOk = false then (-1, input1)
      else
        let input2 := { input1 with
                        path := some entry.path,
                        mode := entry.mode,
                        mmfile := { ptr := some rd.2.data, size := rd.2.size } }
        let input3 := if input2.label = none then { input2 with label := input2.path }
                      else input2
        (rd.1, input3)

/-- `git_merge_file__input_from_diff_file` (src/merge_file.c lines 142-175):
identical shape to the index-entry normalizer, reading the descriptor's own
id/path/mode fields. -/
def git_merge_file__input_from_diff_file
    (repoOdb : Int × Odb)
    (odbRead : Odb → Oid → Int × OdbObject)
    (allocOk : Bool)
    (input : MergeInput) (file : DiffFile) : Int × MergeInput :=
  if file.mode = 0 then (0, input)
  else if repoOdb.1 < 0 then (repoOdb.1, input)
  else
    let rd := odbRead repoOdb.2 file.id
    if rd.1 < 0 then (rd.1, input)
    else
      let input1 := { input with odb_object := some rd.2 }
      if allocOk = false then (-1, input1)
      else
        let input2 := { input1 with
                        path := some file.path,
                        mode := file.mode,
                        mmfile := { ptr := some rd.2.data, size := rd.2.size } }
        let input3 := if input2.label = none then { input2 with label := input2.path }
                      else input2
        (rd.1, input3)

/-- C7: when the supplied index entry's mode (resp. diff-file's mode) is the
absent-sentinel 0, the index-entry (resp. diff-file) normalizer returns
success (0) immediately and leaves the input completely unmodified. -/
theorem input_from_absent_descriptor_noop
    (repoOdb : Int × Odb) (odbRead : Odb → Oid → Int × OdbObject)
    (allocOk : Bool) (input : MergeInput)
    (entry : IndexEntry) (file : DiffFile)
    (he : entry.mode = 0) (hf : file.mode = 0) :
    git_merge_file__input_from_index_entry repoOdb odbRead allocOk input entry =
      (0, input) ∧
    git_merge_file__input_from_diff_file repoOdb odbRead allocOk input file =
      (0, input) := by
  constructor
  · unfold git_merge_file__input_from_index_entry
    rw [if_pos he]
  · unfold git_merge_file__input_from_diff_file
    rw [if_pos hf]

/-- A fixture object-database handle that opens successfully. -/
def odbOk : Int × Odb := (0, { handle := 0 })

/-- A fixture object-database read that always succeeds with one byte. -/
def odbReadOk : Odb → Oid → Int × OdbObject := fun _ _ => (0, { data := [104], size := 1 })

/-- A fixture index entry with the absent-sentinel mode. -/
def absentEntry : IndexEntry := { mode := 0, path := "e", id := { id := 1 } }

/-- A fixture diff file with the absent-sentinel mode. -/
def absentDiffFile : DiffFile := { id := { id := 1 }, path := "d", mode := 0 }

/-- Witness for C7 at a concrete call. -/
theorem input_from_absent_descriptor_noop_witness :
    git_merge_file__input_from_index_entry odbOk odbReadOk true sampleInput
        absentEntry = (0, sampleInput) ∧
    git_merge_file__input_from_diff_file odbOk odbReadOk true sampleInput
        absentDiffFile = (0, sampleInput) :=
  input_from_absent_descriptor_noop odbOk odbReadOk true sampleInput
    absentEntry absentDiffFile rfl rfl

/-- An input whose caller pre-set a path but left the label null. -/
def presetPathInput : MergeInput := { mergeInputZero with path := some "x" }

/-- C8 counterexample: calling the index-entry normalizer on an entry with
the absent-sentinel mode is a successful call (returns 0), yet when the
label was null at entry it stays null and does NOT equal the input's path. -/
theorem input_label_claim_fails_on_absent_noop :
    (git_merge_file__input_from_index_entry odbOk odbReadOk true
        presetPathInput absentEntry).1 = 0 ∧
    presetPathInput.label = none ∧
    (git_merge_file__input_from_index_entry odbOk odbReadOk true
        presetPathInput absentEntry).2.label = none ∧
    (git_merge_file__input_from_index_entry odbOk odbReadOk true
        presetPathInput absentEntry).2.path = some "x" := by
  refine ⟨rfl, rfl, rfl, rfl⟩

/-- The label contract of the normalizers: a null label is replaced by the
resolved path, a non-null label is preserved. -/
def labelContract (input out : MergeInput) : Prop :=
  (input.label = none → out.label = out.path) ∧
  (input.label ≠ none → out.label = input.label)

/-- C8 (amended): on every successful from-file normalization, and on every
successful index-entry / diff-file normalization whose descriptor mode is
not the absent-sentinel, a null label at entry is set to the resolved path
and a non-null label is left unchanged; in the absent-sentinel no-op cases
the label is always left unchanged (even if null). -/
theorem input_label_defaults
    (stat : String → Int × StatInfo) (readbuffer : String → Int × List Nat)
    (repoOdb : Int × Odb) (odbRead : Odb → Oid → Int × OdbObject)
    (allocOk : Bool) (input : MergeInput) (p : String)
    (entry : IndexEntry) (file : DiffFile) :
    (¬ (git_merge_file__input_from_file stat readbuffer allocOk input p).1 < 0 →
      labelContract input
        (git_merge_file__input_from_file stat readbuffer allocOk input p).2) ∧
    (entry.mode ≠ 0 →
      ¬ (git_merge_file__input_from_index_entry repoOdb odbRead allocOk
          input entry).1 < 0 →
      labelContract input
        (git_merge_file__input_from_index_entry repoOdb odbRead allocOk
          input entry).2) ∧
    (entry.mode = 0 →
      (git_merge_file__input_from_index_entry repoOdb odbRead allocOk
        input entry).2.label = input.label) ∧
    (file.mode ≠ 0 →
      ¬ (git_merge_file__input_from_diff_file repoOdb odbRead allocOk
          input file).1 < 0 →
      labelContract input
        (git_merge_file__input_from_diff_file repoOdb odbRead allocOk
          input file).2) ∧
    (file.mode = 0 →
      (git_merge_file__input_from_diff_file repoOdb odbRead allocOk
        input file).2.label = input.label) := by
  refine ⟨?_, ?_, ?_, ?_, ?_⟩
  · intro hok
    unfold git_merge_file__input_from_file at hok ⊢
    by_cases hs : (stat p).1 < 0
    · rw [if_pos hs] at hok
      exact absurd hs hok
    · rw [if_neg hs] at hok ⊢
      by_cases hr : (readbuffer p).1 < 0
      · rw [if_pos hr] at hok
        exact absurd hr hok
      · rw [if_neg hr] at hok ⊢
        by_cases hA : allocOk = false
        · rw [if_pos hA] at hok
          simp at hok
        · rw [if_neg hA]
          by_cases hl : input.label = none
          · simp [labelContract, hl]
          · simp [labelContract, hl]
  · intro hm hok
    unfold git_merge_file__input_from_index_entry at hok ⊢
    rw [if_neg hm] at hok ⊢
    by_cases ho : repoOdb.1 < 0
    · rw [if_pos ho] at hok
      exact absurd ho hok
    · rw [if_neg ho] at hok ⊢
      by_cases hr : (odbRead repoOdb.2 entry.id).1 < 0
      · rw [if_pos hr] at hok
        exact absurd hr hok
      · rw [if_neg hr] at hok ⊢
        by_cases hA : allocOk = false
        · rw [if_pos hA] at hok
          simp at hok
        · rw [if_neg hA]
          by_cases hl : input.label = none
          · simp [labelContract, hl]
          · simp [labelContract, hl]
  · intro hm
    unfold git_merge_file__input_from_index_entry
    rw [if_pos hm]
  · intro hm hok
    unfold git_merge_file__input_from_diff_file at hok ⊢
    rw [if_neg hm] at hok ⊢
    by_cases ho : repoOdb.1 < 0
    · rw [if_pos ho] at hok
      exact absurd ho hok
    · rw [if_neg ho] at hok ⊢
      by_cases hr : (odbRead repoOdb.2 file.id).1 < 0
      · rw [if_pos hr] at hok
        exact absurd hr hok
      · rw [if_neg hr] at hok ⊢
        by_cases hA : allocOk = false
        · rw [if_pos hA] at hok
          simp at hok
        · rw [if_neg hA]
          by_cases hl : input.label = none
          · simp [labelContract, hl]
          · simp [labelContract, hl]
  · intro hm
    unfold git_merge_file__input_from_diff_file
    rw [if_pos hm]

/-- A fixture stat collaborator that succeeds with a plain-file mode. -/
def statOk : String → Int × StatInfo := fun _ => (0, { st_mode := 33188 })

/-- A fixture read collaborator that succeeds with two bytes. -/
def readbufferOk : String → Int × List Nat := fun _ => (0, [104, 105])

/-- A fixture index entry for a present plain blob. -/
def sampleEntry : IndexEntry := { mode := GIT_FILEMODE_BLOB, path := "e", id := { id := 1 } }

/-- A fixture diff file for a present plain blob. -/
def sampleDiffFile : DiffFile := { id := { id := 1 }, path := "d", mode := GIT_FILEMODE_BLOB }

/-- Witness for the amended C8 at concrete collaborators and inputs. -/
theorem input_label_defaults_witness :
    (¬ (git_merge_file__input_from_file statOk readbufferOk true
          mergeInputZero "f").1 < 0 →
      labelContract mergeInputZero
        (git_merge_file__input_from_file statOk readbufferOk true
          mergeInputZero "f").2) ∧
    (sampleEntry.mode ≠ 0 →
      ¬ (git_merge_file__input_from_index_entry odbOk odbReadOk true
          mergeInputZero sampleEntry).1 < 0 →
      labelContract mergeInputZero
        (git_merge_file__input_from_index_entry odbOk odbReadOk true
          mergeInputZero sampleEntry).2) ∧
    (sampleEntry.mode = 0 →
      (git_merge_file__input_from_index_entry odbOk odbReadOk true
        mergeInputZero sampleEntry).2.label = mergeInputZero.label) ∧
    (sampleDiffFile.mode ≠ 0 →
      ¬ (git_merge_file__input_from_diff_file odbOk odbReadOk true
          mergeInputZero sampleDiffFile).1 < 0 →
      labelContract mergeInputZero
        (git_merge_file__input_from_diff_file odbOk odbReadOk true
          mergeInputZero sampleDiffFile).2) ∧
    (sampleDiffFile.mode = 0 →
      (git_merge_file__input_from_diff_file odbOk odbReadOk true
        mergeInputZero sampleDiffFile).2.label = mergeInputZero.label) :=
  input_label_defaults statOk readbufferOk odbOk odbReadOk true
    mergeInputZero "f" sampleEntry sampleDiffFile

/-- `git_merge_file_result_free` (src/merge_file.c lines 324-332), modelled
as returning the list of buffers it hands to `free()`: `none` for the result
pointer models the C `NULL` argument, and an empty returned list means no
deallocation happened. -/
def git_merge_file_result_free (result : Option MergeResult) : List (List Nat) :=
  match result with
  | none => []
  | some r =>
    match r.data with
    | none => []
    | some d => [d]

/-- C9: releasing a null result pointer, or a result whose data is null,
performs no deallocation (and, being a total function, cannot fail). -/
theorem result_free_null_noop (r : MergeResult) (h : r.data = none) :
    git_merge_file_result_free none = [] ∧
    git_merge_file_result_free (some r) = [] := by
  constructor
  · rfl
  · simp [git_merge_file_result_free, h]

/-- Witness for C9 at the all-zero result. -/
theorem result_free_null_noop_witness :
    git_merge_file_result_free none = [] ∧
    git_merge_file_result_free (some mergeResultZero) = [] :=
  result_free_null_noop mergeResultZero rfl

/-- git_merge_file_options, restricted to the fields the entry points read
(plus `favor`, which they notably do not read). -/
structure MergeFileOptions where
  ancestor_label : Option String
  our_label : Option String
  their_label : Option String
  favor : GitMergeFileFavor
  flags : Nat
deriving DecidableEq

/-- `git_merge_file` (src/merge_file.c lines 233-276): normalizes the three
paths, runs the orchestrator with the `GIT_MERGE_FILE_FAVOR_NORMAL` literal,
then re-duplicates the result path.  `result` is the caller's result memory,
returned untouched when a normalizer fails. -/
def git_merge_file
    (stat : String → Int × StatInfo)
    (readbuffer : String → Int × List Nat)
    (allocOk : Bool)
    (engine : MergeEngine)
    (result : MergeResult)
    (ancestor_path our_path their_path : String)
    (opts : Option MergeFileOptions) : Int × MergeResult × Option XmParam :=
  let flags := match opts with
    | some o => o.flags
    | none => GIT_MERGE_FILE_DEFAULT
  let ancestor_input := { mergeInputZero with
    label := match opts with | some o => o.ancestor_label | none => none }
  let our_input := { mergeInputZero with
    label := match opts with | some o => o.our_label | none => none }
  let their_input := { mergeInputZero with
    label := match opts with | some o => o.their_label | none => none }
  let ra := git_merge_file__input_from_file stat readbuffer allocOk
              ancestor_input ancestor_path
  if ra.1 < 0 then (ra.1, result, none)
  else
    let ro := git_merge_file__input_from_file stat readbuffer allocOk
                our_input our_path
    if ro.1 < 0 then (ro.1, result, none)
    else
      let rt := git_merge_file__input_from_file stat readbuffer allocOk
                  their_input their_path
      if rt.1 < 0 then (rt.1, result, none)
      else
        let step := git_merge_file__from_inputs engine ra.2 ro.2 rt.2
                      GitMergeFileFavor.normal flags
        if step.1 < 0 then (step.1, step.2.1, step.2.2)
        else
          match step.2.1.path with
          | none => (step.1, step.2.1, step.2.2)
          | some _ =>
            if allocOk then (step.1, step.2.1, step.2.2)
            else (-1, { step.2.1 with path := none }, step.2.2)

/-- `git_merge_file_from_index` (src/merge_file.c lines 278-322): normalizes
the three index entries, then (only after all three succeeded) overwrites
the labels and flags from the options, and runs the orchestrator with the
`GIT_MERGE_FILE_FAVOR_NORMAL` literal. -/
def git_merge_file_from_index
    (repoOdb : Int × Odb)
    (odbRead : Odb → Oid → Int × OdbObject)
    (allocOk : Bool)
    (engine : MergeEngine)
    (result : MergeResult)
    (ancestor ours theirs : IndexEntry)
    (opts : Option MergeFileOptions) : Int × MergeResult × Option XmParam :=
  let ra := git_merge_file__input_from_index_entry repoOdb odbRead allocOk
              mergeInputZero ancestor
  if ra.1 < 0 then (ra.1, result, none)
  else
    let ro := git_merge_file__input_from_index_entry repoOdb odbRead allocOk
                mergeInputZero ours
    if ro.1 < 0 then (ro.1, result, none)
    else
      let rt := git_merge_file__input_from_index_entry repoOdb odbRead allocOk
                  mergeInputZero theirs
      if rt.1 < 0 then (rt.1, result, none)
      else
        let ai := match opts with
          | some o => { ra.2 with label := o.ancestor_label }
          | none => ra.2
        let oi := match opts with
          | some o => { ro.2 with label := o.our_label }
          | none => ro.2
        let ti := match opts with
          | some o => { rt.2 with label := o.their_label }
          | none => rt.2
        let flags := match opts with
          | some o => o.flags
          | none => GIT_MERGE_FILE_DEFAULT
        let step := git_merge_file__from_inputs engine ai oi ti
                      GitMergeFileFavor.normal flags
        if step.1 < 0 then (step.1, step.2.1, step.2.2)
        else
          match step.2.1.path with
          | none => (step.1, step.2.1, step.2.2)
          | some _ =>
            if allocOk then (step.1, step.2.1, step.2.2)
            else (-1, { step.2.1 with path := none }, step.2.2)

/-- Whenever the orchestrator hands an xmparam to the engine, it is the one
built by `mkXmparam` from its own arguments. -/
theorem from_inputs_xmparam_eq (engine : MergeEngine) (a o t : MergeInput)
    (favor : GitMergeFileFavor) (flags : Nat) (xm : XmParam)
    (h : (git_merge_file__from_inputs engine a o t favor flags).2.2 = some xm) :
    xm = mkXmparam a o t favor flags := by
  unfold git_merge_file__from_inputs at h
  by_cases hc : o.mode = 0 ∨ t.mode = 0
  · rw [if_pos hc] at h
    exact absurd h (by simp)
  · rw [if_neg hc] at h
    by_cases hr : (engine a.mmfile o.mmfile t.mmfile
        (mkXmparam a o t favor flags)).1 < 0
    · simp only [hr, if_true, if_pos hr] at h
      exact (Option.some.inj h).symm
    · simp only [hr, if_false, if_neg hr] at h
      exact (Option.some.inj h).symm

/-- The favor field `mkXmparam` computes for the Normal favor policy is the
xdiff default 0 (no favoring). -/
theorem mkXmparam_normal_favor (a o t : MergeInput) (flags : Nat) :
    (mkXmparam a o t GitMergeFileFavor.normal flags).favor = 0 := rfl

/-- Any xmparam reaching the engine through `git_merge_file` has favor 0. -/
theorem git_merge_file_xm_favor
    (stat : String → Int × StatInfo) (readbuffer : String → Int × List Nat)
    (allocOk : Bool) (engine : MergeEngine) (result : MergeResult)
    (ap op tp : String) (opts : Option MergeFileOptions) (xm : XmParam)
    (h : (git_merge_file stat readbuffer allocOk engine result ap op tp
            opts).2.2 = some xm) :
    xm.favor = 0 := by
  unfold git_merge_file at h
  rcases opts with _ | o
  all_goals dsimp only at h
  all_goals
    repeat
      first
      | (exact Option.noConfusion h)
      | (rw [from_inputs_xmparam_eq _ _ _ _ _ _ _ h]
         exact mkXmparam_normal_favor _ _ _ _)
      | split at h

/-- Any xmparam reaching the engine through `git_merge_file_from_index` has
favor 0. -/
theorem git_merge_file_from_index_xm_favor
    (repoOdb : Int × Odb) (odbRead : Odb → Oid → Int × OdbObject)
    (allocOk : Bool) (engine : MergeEngine) (result : MergeResult)
    (ae oe te : IndexEntry) (opts : Option MergeFileOptions) (xm : XmParam)
    (h : (git_merge_file_from_index repoOdb odbRead allocOk engine result
            ae oe te opts).2.2 = some xm) :
    xm.favor = 0 := by
  unfold git_merge_file_from_index at h
  rcases opts with _ | o
  all_goals dsimp only at h
  all_goals
    repeat
      first
      | (exact Option.noConfusion h)
      | (rw [from_inputs_xmparam_eq _ _ _ _ _ _ _ h]
         exact mkXmparam_normal_favor _ _ _ _)
      | split at h

/-- C10: the two public entry points ignore the favor supplied in the
options — changing it changes nothing in the outcome — and every xmparam
they hand to the engine carries the xdiff no-favor value 0 (the mapping of
the Normal policy), never the Ours (1), Theirs (2) or Union (3) values. -/
theorem public_entries_favor_always_normal
    (stat : String → Int × StatInfo) (readbuffer : String → Int × List Nat)
    (repoOdb : Int × Odb) (odbRead : Odb → Oid → Int × OdbObject)
    (allocOk : Bool) (engine : MergeEngine) (result : MergeResult)
    (ap op tp : String) (ae oe te : IndexEntry)
    (opts : MergeFileOptions) (f : GitMergeFileFavor) :
    git_merge_file stat readbuffer allocOk engine result ap op tp
        (some opts) =
      git_merge_file stat readbuffer allocOk engine result ap op tp
        (some { opts with favor := f }) ∧
    git_merge_file_from_index repoOdb odbRead allocOk engine result ae oe te
        (some opts) =
      git_merge_file_from_index repoOdb odbRead allocOk engine result ae oe te
        (some { opts with favor := f }) ∧
    (∀ xm, (git_merge_file stat readbuffer allocOk engine result ap op tp
        (some opts)).2.2 = some xm →
      xm.favor = 0 ∧ xm.favor ≠ XDL_MERGE_FAVOR_OURS ∧
      xm.favor ≠ XDL_MERGE_FAVOR_THEIRS ∧ xm.favor ≠ XDL_MERGE_FAVOR_UNION) ∧
    (∀ xm, (git_merge_file_from_index repoOdb odbRead allocOk engine result
        ae oe te (some opts)).2.2 = some xm →
      xm.favor = 0 ∧ xm.favor ≠ XDL_MERGE_FAVOR_OURS ∧
      xm.favor ≠ XDL_MERGE_FAVOR_THEIRS ∧ xm.favor ≠ XDL_MERGE_FAVOR_UNION) := by
  refine ⟨rfl, rfl, ?_, ?_⟩
  · intro xm h
    have hx := git_merge_file_xm_favor stat readbuffer allocOk engine result
      ap op tp (some opts) xm h
    rw [hx]
    refine ⟨rfl, by decide, by decide, by decide⟩
  · intro xm h
    have hx := git_merge_file_from_index_xm_favor repoOdb odbRead allocOk
      engine result ae oe te (some opts) xm h
    rw [hx]
    refine ⟨rfl, by decide, by decide, by decide⟩

/-- A fixture option set requesting the Theirs favor policy. -/
def sampleOpts : MergeFileOptions :=
  { ancestor_label := none, our_label := some "mine", their_label := none,
    favor := GitMergeFileFavor.theirs, flags := 0 }

/-- Witness for C10 at concrete collaborators, paths, entries and options. -/
theorem public_entries_favor_always_normal_witness :
    git_merge_file statOk readbufferOk true conflictEngine mergeResultZero
        "pa" "po" "pt" (some sampleOpts) =
      git_merge_file statOk readbufferOk true conflictEngine mergeResultZero
        "pa" "po" "pt" (some { sampleOpts with favor := GitMergeFileFavor.union }) ∧
    git_merge_file_from_index odbOk odbReadOk true conflictEngine mergeResultZero
        sampleEntry sampleEntry sampleEntry (some sampleOpts) =
      git_merge_file_from_index odbOk odbReadOk true conflictEngine mergeResultZero
        sampleEntry sampleEntry sampleEntry
        (some { sampleOpts with favor := GitMergeFileFavor.union }) ∧
    (∀ xm, (git_merge_file statOk readbufferOk true conflictEngine mergeResultZero
        "pa" "po" "pt" (some sampleOpts)).2.2 = some xm →
      xm.favor = 0 ∧ xm.favor ≠ XDL_MERGE_FAVOR_OURS ∧
      xm.favor ≠ XDL_MERGE_FAVOR_THEIRS ∧ xm.favor ≠ XDL_MERGE_FAVOR_UNION) ∧
    (∀ xm, (git_merge_file_from_index odbOk odbReadOk true conflictEngine
        mergeResultZero sampleEntry sampleEntry sampleEntry
        (some sampleOpts)).2.2 = some xm →
      xm.favor = 0 ∧ xm.favor ≠ XDL_MERGE_FAVOR_OURS ∧
      xm.favor ≠ XDL_MERGE_FAVOR_THEIRS ∧ xm.favor ≠ XDL_MERGE_FAVOR_UNION) :=
  public_entries_favor_always_normal statOk readbufferOk odbOk odbReadOk true
    conflictEngine mergeResultZero "pa" "po" "pt" sampleEntry sampleEntry
    sampleEntry sampleOpts GitMergeFileFavor.union
